import Mathlib

/-!
Shallow embedding of the NYC collisions ETL pipeline (silver standardization,
gold enrichment/aggregation, HTTP session setup, data-quality validation and
output-directory persistence), together with theorems checking the
claims of the specification against it.

Tables are lists of typed rows; nullable columns are `Option` fields; numeric
values that polars holds as `Float64` are modelled as rationals; fallible
polars operations (strict casts, strict date parsing) return `Option`.
-/

namespace NycEtl

/-- Calendar date, as produced by the polars `str.to_date` conversions. -/
structure Date where
  year : Nat
  month : Nat
  day : Nat
deriving DecidableEq, Repr

/-- Lexicographic comparison on dates, matching how polars orders a `Date`
column in `sort` and in string/date comparisons. -/
def Date.le (a b : Date) : Bool :=
  a.year < b.year ||
    (a.year == b.year &&
      (a.month < b.month || (a.month == b.month && a.day ≤ b.day)))

/-- Gregorian leap-year test. -/
def isLeapYear (y : Nat) : Bool :=
  (y % 4 == 0 && y % 100 != 0) || y % 400 == 0

/-- Number of days in a month of a given year. -/
def daysInMonth (y m : Nat) : Nat :=
  if m == 2 then (if isLeapYear y then 29 else 28)
  else if m == 4 || m == 6 || m == 9 || m == 11 then 30
  else 31

/-- Days in the months of year `y` strictly before month `m`. -/
def daysBeforeMonth (y m : Nat) : Nat :=
  (List.range (m - 1)).foldl (fun acc i => acc + daysInMonth y (i + 1)) 0

/-- Rata-die day number of a date (0001-01-01 is day 1, a Monday in the
proleptic Gregorian calendar). -/
def Date.rataDie (d : Date) : Nat :=
  365 * (d.year - 1) + (d.year - 1) / 4 - (d.year - 1) / 100 + (d.year - 1) / 400
    + daysBeforeMonth d.year d.month + d.day

/-- ISO weekday (Monday = 1 .. Sunday = 7), as polars `dt.weekday`. -/
def Date.isoWeekday (d : Date) : Nat :=
  (d.rataDie - 1) % 7 + 1

/-- Whether a list of characters is all decimal digits, at least one. -/
def allDigits (cs : List Char) : Bool :=
  !cs.isEmpty && cs.all (·.isDigit)

/-- Value of a digit list read in base 10. -/
def digitsToNat (cs : List Char) : Nat :=
  cs.foldl (fun acc c => acc * 10 + (c.toNat - 48)) 0

/-- Parse a string of decimal digits into a natural number. -/
def parseNat (cs : List Char) : Option Nat :=
  if allDigits cs then some (digitsToNat cs) else none

/-- Parse an optionally signed integer, as the polars cast from `String` to an
integer type accepts: an optional single leading sign, then digits only. -/
def parseInt (cs : List Char) : Option Int :=
  match cs with
  | '-' :: rest => if allDigits rest then some (-(digitsToNat rest : Int)) else none
  | '+' :: rest => if allDigits rest then some (digitsToNat rest : Int) else none
  | cs2 => if allDigits cs2 then some (digitsToNat cs2 : Int) else none

/-- Whitespace characters stripped by `str.strip_chars()` (no argument). -/
def isSpaceChar (c : Char) : Bool :=
  c == ' ' || c == '\t' || c == '\n' || c == '\r'

/-- Strip leading and trailing whitespace, as `str.strip_chars()`. -/
def trimChars (cs : List Char) : List Char :=
  ((cs.dropWhile isSpaceChar).reverse.dropWhile isSpaceChar).reverse

/-- Lexicographic strict order on character lists, as the comparison polars
applies when filtering a string column against a string literal. -/
def ltChars : List Char → List Char → Bool
  | [], [] => false
  | [], _ :: _ => true
  | _ :: _, [] => false
  | a :: as, b :: bs => a < b || (a == b && ltChars as bs)

/-- Parse the digit part of a decimal string: `intDigits [. fracDigits]`,
where at least the integer part must be present. Returns the exact rational
value (the `Float64` produced by the polars cast rounds this; all values used
in the claims are exactly representable). -/
def parseDigitsDecimal (cs : List Char) : Option ℚ :=
  match cs.splitOn '.' with
  | [intPart] =>
      if allDigits intPart then some ((digitsToNat intPart : ℚ)) else none
  | [intPart, fracPart] =>
      if allDigits intPart && allDigits fracPart then
        some ((digitsToNat intPart : ℚ)
          + (digitsToNat fracPart : ℚ) / (10 : ℚ) ^ fracPart.length)
      else none
  | _ => none

/-- Parse an optionally signed decimal number, as the polars cast from
`String` to `Float64` parses numeric text. -/
def parseDecimal (cs : List Char) : Option ℚ :=
  match cs with
  | '-' :: rest => (parseDigitsDecimal rest).map (fun q => -q)
  | '+' :: rest => parseDigitsDecimal rest
  | cs2 => parseDigitsDecimal cs2

/-- Round to the nearest integer, halves away from zero, as the Rust
`f64::round` underlying the polars `round` does. -/
def roundHalfAway (q : ℚ) : Int :=
  if 0 ≤ q then ⌊q + 1 / 2⌋ else ⌈q - 1 / 2⌉

/-- Round to one decimal place, as `.round(1)` in `process_weather`. -/
def roundTo1 (q : ℚ) : ℚ :=
  (roundHalfAway (q * 10) : ℚ) / 10

/-- Parse a date from "month/day/year" text, as the strict
`str.to_date("%m/%d/%Y")` in `process_collisions` (calendar-valid dates
only; `none` models the polars parse error). -/
def parseDateMDY (s : String) : Option Date :=
  match s.toList.splitOn '/' with
  | [ms, ds, ys] => do
      let m ← parseNat ms
      let d ← parseNat ds
      let y ← parseNat ys
      if 1 ≤ m ∧ m ≤ 12 ∧ 1 ≤ d ∧ d ≤ daysInMonth y m then some ⟨y, m, d⟩
      else none
  | _ => none

/-- Parse a date from ISO "year-month-day" text, as the strict
`str.to_date("%Y-%m-%d")` in `process_holidays` and `process_weather`. -/
def parseDateYMD (s : String) : Option Date :=
  match s.toList.splitOn '-' with
  | [ys, ms, ds] => do
      let y ← parseNat ys
      let m ← parseNat ms
      let d ← parseNat ds
      if 1 ≤ m ∧ m ≤ 12 ∧ 1 ≤ d ∧ d ≤ daysInMonth y m then some ⟨y, m, d⟩
      else none
  | _ => none

/-! ## Silver layer (`src/layers/silver_processing.py`) -/

/-- Row-wise materialization of a lazy transform whose per-row step can fail:
`none` models the polars error aborting the whole `collect()`. -/
def mapOption {α β : Type} (f : α → Option β) : List α → Option (List β)
  | [] => some []
  | a :: l => do
      let b ← f a
      let bs ← mapOption f l
      some (b :: bs)

/-- Input row for `process_collisions`: the raw columns selected by the
configured rename map, listed here under their canonical (renamed) names.
Every raw column is nullable; the metric columns arrive as integers from the
permissive CSV scan. -/
structure RawCollisionRow where
  crash_date : Option String
  crash_time : Option String
  borough : Option String
  zip_code : Option String
  number_of_persons_injured : Option Int
  number_of_persons_killed : Option Int
  number_of_pedestrians_injured : Option Int
  number_of_pedestrians_killed : Option Int
  number_of_cyclist_injured : Option Int
  number_of_cyclist_killed : Option Int
  number_of_motorist_injured : Option Int
  number_of_motorist_killed : Option Int
deriving DecidableEq, Repr

/-- Standardized collisions row as persisted to the silver layer. -/
structure CollisionRow where
  crash_date : String
  crash_time : Option String
  borough : String
  zip_code : Option String
  number_of_persons_injured : Int
  number_of_persons_killed : Int
  number_of_pedestrians_injured : Int
  number_of_pedestrians_killed : Int
  number_of_cyclist_injured : Int
  number_of_cyclist_killed : Int
  number_of_motorist_injured : Int
  number_of_motorist_killed : Int
  date : Date
  is_weekend : Bool
  year : Nat
  month : Nat
deriving DecidableEq, Repr

/-- Per-row standardization of `process_collisions`: parse the crash date,
fill the null borough with "UNKNOWN", fill null metrics with 0, and derive
the weekend flag and the year/month partition keys. Called after the
null-date filter, so `crash_date` is present; a date that fails the strict
parse is the polars error, modelled as `none`. -/
def standardizeCollision (r : RawCollisionRow) : Option CollisionRow := do
  let cd ← r.crash_date
  let date ← parseDateMDY cd
  some { crash_date := cd
         crash_time := r.crash_time
         borough := r.borough.getD "UNKNOWN"
         zip_code := r.zip_code
         number_of_persons_injured := r.number_of_persons_injured.getD 0
         number_of_persons_killed := r.number_of_persons_killed.getD 0
         number_of_pedestrians_injured := r.number_of_pedestrians_injured.getD 0
         number_of_pedestrians_killed := r.number_of_pedestrians_killed.getD 0
         number_of_cyclist_injured := r.number_of_cyclist_injured.getD 0
         number_of_cyclist_killed := r.number_of_cyclist_killed.getD 0
         number_of_motorist_injured := r.number_of_motorist_injured.getD 0
         number_of_motorist_killed := r.number_of_motorist_killed.getD 0
         date := date
         is_weekend := decide (6 ≤ date.isoWeekday)
         year := date.year
         month := date.month }

/-- The transform of `SilverProcessor.process_collisions`: drop rows whose
"CRASH DATE" is null, then standardize each remaining row. -/
def process_collisions (rows : List RawCollisionRow) : Option (List CollisionRow) :=
  mapOption standardizeCollision (rows.filter (fun r => r.crash_date.isSome))

/-- Input row for `process_weather`: the NOAA GHCN-Daily columns the
transform reads, all as nullable text (`infer_schema_length=0`). -/
structure RawWeatherRow where
  DATE : Option String
  TMAX : Option String
  TMIN : Option String
  PRCP : Option String
  SNOW : Option String
  WT01 : Option String
  WT02 : Option String
deriving DecidableEq, Repr

/-- Standardized weather row as persisted to the silver layer. -/
structure WeatherRow where
  date : Date
  temp_max_c : Option ℚ
  temp_min_c : Option ℚ
  precipitation_mm : Option ℚ
  snow_mm : Option ℚ
  is_foggy : Bool
  has_rain : Bool
  has_snow : Bool
  year : Nat
  month : Nat
deriving DecidableEq, Repr

/-- Strict cast of a nullable text column to `Float64` after
`str.strip_chars()`: null stays null, unparseable text is the polars error
(outer `none`). -/
def castFloatStrict : Option String → Option (Option ℚ)
  | none => some none
  | some s => (parseDecimal (trimChars s.toList)).map some

/-- Non-strict cast of a nullable text column to `Int32` after
`str.strip_chars()`: null or unparseable text becomes null, never an error
(`cast(pl.Int32, strict=False)`). -/
def castIntNonStrict : Option String → Option Int
  | none => none
  | some s => parseInt (trimChars s.toList)

/-- Kleene disjunction on nullable booleans, as `pl.any_horizontal` combines
its (null-propagating) comparison operands. -/
def kleeneOr : Option Bool → Option Bool → Option Bool
  | some true, _ => some true
  | _, some true => some true
  | some false, some false => some false
  | _, _ => none

/-- Builder for the standardized weather row from the parsed column values:
divide temperature and precipitation by 10 (temperature also rounded to one
decimal place), derive the fog flag from the WT01/WT02 text with Kleene
logic, derive the rain/snow flags from the amounts, fill nulls with false,
and derive the partition keys. -/
def mkWeatherRow (date : Date) (tmax tmin prcp snow : Option ℚ)
    (wt01 wt02 : Option String) : WeatherRow :=
  { date := date
    temp_max_c := tmax.map (fun v => roundTo1 (v / 10))
    temp_min_c := tmin.map (fun v => roundTo1 (v / 10))
    precipitation_mm := prcp.map (fun v => v / 10)
    snow_mm := snow
    is_foggy := (kleeneOr ((castIntNonStrict wt01).map (fun n => n == 1))
        ((castIntNonStrict wt02).map (fun n => n == 1))).getD false
    has_rain := (prcp.map (fun v => decide (0 < v))).getD false
    has_snow := (snow.map (fun v => decide (0 < v))).getD false
    year := date.year
    month := date.month }

/-- Per-row standardization of `process_weather`: parse the ISO date, strip
and strictly cast the numeric text columns, and build the clean row; any
strict cast failing (or the date failing to parse) is the polars error,
modelled as `none`. -/
def standardizeWeather (r : RawWeatherRow) : Option WeatherRow :=
  match r.DATE with
  | none => none
  | some ds =>
    match parseDateYMD ds with
    | none => none
    | some date =>
      match castFloatStrict r.TMAX, castFloatStrict r.TMIN,
          castFloatStrict r.PRCP, castFloatStrict r.SNOW with
      | some tmax, some tmin, some prcp, some snow =>
          some (mkWeatherRow date tmax tmin prcp snow r.WT01 r.WT02)
      | _, _, _, _ => none

/-- The transform of `SilverProcessor.process_weather`: keep rows whose raw
DATE text is non-null and at least "2020-01-01" (the string comparison the
code performs before parsing), then standardize each remaining row. -/
def process_weather (rows : List RawWeatherRow) : Option (List WeatherRow) :=
  (rows.filter (fun r =>
    match r.DATE with
    | some s => !ltChars s.toList ("2020-01-01".toList)
    | none => false)) |> mapOption standardizeWeather

/-- Input row for `process_holidays`: one JSON object from the holidays API,
with the holiday-type tags nullable. -/
structure RawHolidayRow where
  date : String
  name : String
  types : Option (List String)
deriving DecidableEq, Repr

/-- Standardized holiday row as persisted to the silver layer. -/
structure HolidayRow where
  date : Date
  holiday_name : String
  types : Option (List String)
  year : Nat
  month : Nat
deriving DecidableEq, Repr

/-- Per-row standardization of `process_holidays`: parse the ISO date,
rename `name` to `holiday_name`, keep the type list, derive partition keys. -/
def standardizeHoliday (r : RawHolidayRow) : Option HolidayRow := do
  let date ← parseDateYMD r.date
  some { date := date
         holiday_name := r.name
         types := r.types
         year := date.year
         month := date.month }

/-- The transform of `SilverProcessor.process_holidays`: standardize each
row, then drop exact duplicates (`unique()`). -/
def process_holidays (rows : List RawHolidayRow) : Option (List HolidayRow) :=
  (mapOption standardizeHoliday rows).map List.dedup

/-! ## Gold layer (`src/layers/gold_processing.py`) -/

/-- Projection of the weather table taken inside `_enrich_collisions`
(`weather_clean`): only date, temperatures and the three condition flags. -/
structure WeatherClean where
  date : Date
  temp_max_c : Option ℚ
  temp_min_c : Option ℚ
  has_rain : Bool
  has_snow : Bool
  is_foggy : Bool
deriving DecidableEq, Repr

/-- The `select` building `weather_clean` from the silver weather table. -/
def selectWeatherClean (w : WeatherRow) : WeatherClean :=
  { date := w.date
    temp_max_c := w.temp_max_c
    temp_min_c := w.temp_min_c
    has_rain := w.has_rain
    has_snow := w.has_snow
    is_foggy := w.is_foggy }

/-- One enriched collision record produced by `_enrich_collisions`. -/
structure EnrichedRow where
  date : Date
  borough : String
  zip_code : Option String
  is_weekend : Bool
  number_of_persons_injured : Int
  number_of_persons_killed : Int
  number_of_pedestrians_injured : Int
  number_of_pedestrians_killed : Int
  number_of_cyclist_injured : Int
  number_of_cyclist_killed : Int
  number_of_motorist_injured : Int
  number_of_motorist_killed : Int
  holiday_name : String
  types : Option (List String)
  high_impact_holiday : Bool
  partial_impact_holiday : Bool
  low_impact_holiday : Bool
  has_rain : Bool
  has_snow : Bool
  is_foggy : Bool
  temp_max_c : Option ℚ
  temp_min_c : Option ℚ
  max_temp : Option ℚ
  min_temp : Option ℚ
deriving DecidableEq, Repr

/-- Matches of one left-join key: the right-table rows whose key matches, or
a single null row when there is none (polars `join(..., how="left")`). -/
def leftMatches {α : Type} (p : α → Bool) (xs : List α) : List (Option α) :=
  match xs.filter p with
  | [] => [none]
  | ms => ms.map some

/-- The `with_columns` block of `_enrich_collisions` applied to one joined
row: fill the null holiday name with "Non-Holiday", derive the three impact
flags from the holiday type list with nulls filled as false, fill null
rain/snow/fog flags with false, and alias the temperatures as
max_temp/min_temp. -/
def mkEnriched (c : CollisionRow) (h : Option HolidayRow) (w : Option WeatherClean) :
    EnrichedRow :=
  let types := h.bind (fun hr => hr.types)
  { date := c.date
    borough := c.borough
    zip_code := c.zip_code
    is_weekend := c.is_weekend
    number_of_persons_injured := c.number_of_persons_injured
    number_of_persons_killed := c.number_of_persons_killed
    number_of_pedestrians_injured := c.number_of_pedestrians_injured
    number_of_pedestrians_killed := c.number_of_pedestrians_killed
    number_of_cyclist_injured := c.number_of_cyclist_injured
    number_of_cyclist_killed := c.number_of_cyclist_killed
    number_of_motorist_injured := c.number_of_motorist_injured
    number_of_motorist_killed := c.number_of_motorist_killed
    holiday_name := (h.map (fun hr => hr.holiday_name)).getD "Non-Holiday"
    types := types
    high_impact_holiday :=
      (types.map (fun ts => ts.contains "Public" || ts.contains "Bank")).getD false
    partial_impact_holiday :=
      (types.map (fun ts => ts.contains "School" || ts.contains "Authorities")).getD false
    low_impact_holiday :=
      (types.map (fun ts => ts.contains "Optional" || ts.contains "Observance")).getD false
    has_rain := (w.map (fun wr => wr.has_rain)).getD false
    has_snow := (w.map (fun wr => wr.has_snow)).getD false
    is_foggy := (w.map (fun wr => wr.is_foggy)).getD false
    temp_max_c := w.bind (fun wr => wr.temp_max_c)
    temp_min_c := w.bind (fun wr => wr.temp_min_c)
    max_temp := w.bind (fun wr => wr.temp_max_c)
    min_temp := w.bind (fun wr => wr.temp_min_c) }

/-- The transform of `GoldProcessor._enrich_collisions`: keep collisions of
year 2020 onward, left-join holidays then the projected weather on date, and
apply the post-join normalization of `mkEnriched`. -/
def enrich_collisions (cols : List CollisionRow) (hols : List HolidayRow)
    (wea : List WeatherRow) : List EnrichedRow :=
  let weather_clean := wea.map selectWeatherClean
  (cols.filter (fun c => decide (2020 ≤ c.date.year))).flatMap (fun c =>
    (leftMatches (fun h => h.date == c.date) hols).flatMap (fun h =>
      (leftMatches (fun w => w.date == c.date) weather_clean).map (fun w =>
        mkEnriched c h w)))

/-- Grouping key of `_aggregate_stats` (its `group_cols` list). -/
structure GroupKey where
  date : Date
  borough : String
  zip_code : Option String
  is_weekend : Bool
  holiday_name : String
  high_impact_holiday : Bool
  partial_impact_holiday : Bool
  low_impact_holiday : Bool
  has_rain : Bool
  has_snow : Bool
  is_foggy : Bool
  max_temp : Option ℚ
  min_temp : Option ℚ
deriving DecidableEq, Repr

/-- Grouping-key projection of an enriched row. -/
def groupKey (e : EnrichedRow) : GroupKey :=
  { date := e.date
    borough := e.borough
    zip_code := e.zip_code
    is_weekend := e.is_weekend
    holiday_name := e.holiday_name
    high_impact_holiday := e.high_impact_holiday
    partial_impact_holiday := e.partial_impact_holiday
    low_impact_holiday := e.low_impact_holiday
    has_rain := e.has_rain
    has_snow := e.has_snow
    is_foggy := e.is_foggy
    max_temp := e.max_temp
    min_temp := e.min_temp }

/-- One row of the gold daily fact table. -/
structure DailyFact where
  key : GroupKey
  total_accidents : Nat
  number_of_persons_injured : Int
  number_of_persons_killed : Int
  number_of_pedestrians_injured : Int
  number_of_pedestrians_killed : Int
  number_of_cyclist_injured : Int
  number_of_cyclist_killed : Int
  number_of_motorist_injured : Int
  number_of_motorist_killed : Int
deriving DecidableEq, Repr

/-- Aggregation of one group: the row count as `total_accidents` plus the
sums of the eight metric columns. -/
def mkFact (k : GroupKey) (grp : List EnrichedRow) : DailyFact :=
  { key := k
    total_accidents := grp.length
    number_of_persons_injured := (grp.map (fun e => e.number_of_persons_injured)).sum
    number_of_persons_killed := (grp.map (fun e => e.number_of_persons_killed)).sum
    number_of_pedestrians_injured := (grp.map (fun e => e.number_of_pedestrians_injured)).sum
    number_of_pedestrians_killed := (grp.map (fun e => e.number_of_pedestrians_killed)).sum
    number_of_cyclist_injured := (grp.map (fun e => e.number_of_cyclist_injured)).sum
    number_of_cyclist_killed := (grp.map (fun e => e.number_of_cyclist_killed)).sum
    number_of_motorist_injured := (grp.map (fun e => e.number_of_motorist_injured)).sum
    number_of_motorist_killed := (grp.map (fun e => e.number_of_motorist_killed)).sum }

/-- Date order on fact rows, the `sort("date")` of `_aggregate_stats`. -/
def factLE (a b : DailyFact) : Prop :=
  Date.le a.key.date b.key.date = true

instance : DecidableRel factLE := fun a b => by
  unfold factLE; infer_instance

/-- The transform of `GoldProcessor._aggregate_stats`: group the enriched
table by the full dimensional key, aggregate each group with `mkFact`, and
sort the fact rows by date ascending. -/
def aggregate_stats (rows : List EnrichedRow) : List DailyFact :=
  List.insertionSort factLE
    (((rows.map groupKey).dedup).map
      (fun k => mkFact k (rows.filter (fun e => decide (groupKey e = k)))))

/-! ## HTTP session (`src/utils.py`, `setup_session`) -/

/-- The urllib3 `Retry` strategy configured in `setup_session`. -/
structure RetryStrategy where
  total : Nat
  backoff_factor : Nat
  status_forcelist : List Nat
  allowed_methods : List String
deriving DecidableEq, Repr

/-- A requests session as configured by `setup_session`: the retry adapter
is mounted on both URL schemes and default headers are set. -/
structure Session where
  retry : RetryStrategy
  mounts : List String
  headers : List (String × String)
deriving DecidableEq, Repr

/-- The session built by `setup_session`. -/
def setup_session : Session :=
  { retry :=
      { total := 3
        backoff_factor := 1
        status_forcelist := [500, 502, 503, 504]
        allowed_methods := ["HEAD", "GET", "OPTIONS"] }
    mounts := ["https://", "http://"]
    headers := [("User-Agent", "NYCCollisionETL/1.0")] }

/-- Whether a response status code triggers a retry under the configured
strategy (urllib3 retries exactly the `status_forcelist` statuses). -/
def retriesOnStatus (s : Session) (code : Nat) : Bool :=
  s.retry.status_forcelist.contains code

/-- Backoff delay in seconds before re-issuing retry number `n` (0-based):
`backoff_factor * 2 ** n`, so with factor 1 the waits are 1s, 2s, 4s, as the
code comments. -/
def backoffDelay (s : Session) (n : Nat) : Nat :=
  s.retry.backoff_factor * 2 ^ n

/-- Idempotent HTTP methods (RFC 9110). -/
def idempotentMethod (m : String) : Bool :=
  ["GET", "HEAD", "PUT", "DELETE", "OPTIONS", "TRACE"].contains m

/-! ## Data-quality validation (`src/utils.py`, `validate_dataframe`) -/

/-- A dataframe as `validate_dataframe` observes it: named columns of
nullable cells (all values reduced to text, which the check never reads). -/
structure DQFrame where
  columns : List (String × List (Option String))
deriving DecidableEq, Repr

/-- Row count of the frame (`df.height`). -/
def DQFrame.height (df : DQFrame) : Nat :=
  ((df.columns.head?).map (fun c => c.2.length)).getD 0

/-- Column names of the frame (`df.columns`). -/
def DQFrame.columnNames (df : DQFrame) : List String :=
  df.columns.map (fun c => c.1)

/-- Null count of a column (`df.select(pl.col(col).null_count()).item()`). -/
def DQFrame.null_count (df : DQFrame) (col : String) : Nat :=
  match df.columns.find? (fun c => c.1 == col) with
  | some c => (c.2.filter (fun v => v.isNone)).length
  | none => 0

/-- Warning log lines the null check emits: one per critical column that is
missing from the frame or contains nulls. -/
def dqWarnings (df : DQFrame) (name : String) (critical_cols : List String) :
    List String :=
  critical_cols.filterMap (fun col =>
    if (df.columnNames.contains col) = false then
      some ("Skipping null check for missing column " ++ col ++ " in " ++ name)
    else if 0 < df.null_count col then
      some ("DQ Warning: Column " ++ col ++ " in " ++ name ++ " has "
        ++ toString (df.null_count col) ++ " nulls.")
    else none)

/-- The check of `validate_dataframe`: raise (`Except.error`) exactly when
the frame has zero rows; otherwise return normally, carrying the warning
lines logged for the critical columns. The frame itself is never modified. -/
def validate_dataframe (df : DQFrame) (name : String)
    (critical_cols : Option (List String)) : Except String (List String) :=
  if df.height = 0 then
    Except.error ("Data Quality error: Input for " ++ name ++ " is empty")
  else
    Except.ok (dqWarnings df name (critical_cols.getD []))

/-! ## Output-directory persistence (`src/utils.py` `clean_output_directory`
and the persist steps of the silver/gold transforms) -/

/-- A filesystem: files addressed by path segments, with text content. -/
structure FileSys where
  files : List (List String × String)
deriving DecidableEq, Repr

/-- Whether path `p` lies under directory `dir` (segment-wise). -/
def underDir : (dir p : List String) → Bool
  | [], _ => true
  | _ :: _, [] => false
  | a :: as, b :: bs => a == b && underDir as bs

/-- The `clean_output_directory` helper: remove the directory tree and
recreate it empty (`shutil.rmtree` + `mkdir`). -/
def clean_output_directory (fs : FileSys) (dir : List String) : FileSys :=
  { files := fs.files.filter (fun f => !underDir dir f.1) }

/-- Write one file, replacing any previous file at the same path. -/
def writeFile (fs : FileSys) (p : List String) (content : String) : FileSys :=
  { files := fs.files.filter (fun f => f.1 ≠ p) ++ [(p, content)] }

/-- The persist step shared by every silver transform and the gold layer:
clear the destination directory, then write the files of this run (given by path
relative to the directory) into it. -/
def persistDirectory (fs : FileSys) (dir : List String)
    (outs : List (List String × String)) : FileSys :=
  outs.foldl (fun acc o => writeFile acc (dir ++ o.1) o.2)
    (clean_output_directory fs dir)

/-- The persist step of `process_gold_data`: clear the gold directory, then
write `daily_stats.parquet` and `daily_stats.csv` into it. -/
def process_gold_persist (fs : FileSys) (gold_base_path : List String)
    (parquetContent csvContent : String) : FileSys :=
  persistDirectory fs gold_base_path
    [(["daily_stats.parquet"], parquetContent), (["daily_stats.csv"], csvContent)]

/-! ## Concrete inputs used to exercise the theorems -/

/-- Blank raw collisions row (every column null). -/
def rawCollisionNull : RawCollisionRow :=
  { crash_date := none, crash_time := none, borough := none, zip_code := none
    number_of_persons_injured := none, number_of_persons_killed := none
    number_of_pedestrians_injured := none, number_of_pedestrians_killed := none
    number_of_cyclist_injured := none, number_of_cyclist_killed := none
    number_of_motorist_injured := none, number_of_motorist_killed := none }

/-- The three-row collisions input of the null-date-filter scenario. -/
def c4Rows : List RawCollisionRow :=
  [{ rawCollisionNull with crash_date := some "01/01/2024" },
   { rawCollisionNull with crash_date := some "01/01/2019" },
   rawCollisionNull]

/-- Standardized output of the null-date-filter scenario. -/
def c4Out : List CollisionRow :=
  (process_collisions c4Rows).getD []

/-- One raw weather row with TMAX "250" and PRCP "50". -/
def c5Row : RawWeatherRow :=
  { DATE := some "2024-01-01", TMAX := some "250", TMIN := some "150"
    PRCP := some "50", SNOW := some "0", WT01 := some "0", WT02 := some "0" }

/-- Fallback weather row used only as a `getD` default. -/
def weatherRowDefault : WeatherRow :=
  { date := ⟨2020, 1, 1⟩, temp_max_c := none, temp_min_c := none
    precipitation_mm := none, snow_mm := none
    is_foggy := false, has_rain := false, has_snow := false
    year := 2020, month := 1 }

/-- Standardized output of the unit-conversion scenario. -/
def c5Outs : List WeatherRow := (process_weather [c5Row]).getD []

/-- First standardized row of the unit-conversion scenario. -/
def c5Out : WeatherRow := c5Outs.getD 0 weatherRowDefault

/-- Fog scenario rows: WT01/WT02 = "1"/"0", "0"/"1" and "0"/"0". -/
def c6Row1 : RawWeatherRow := { c5Row with WT01 := some "1", WT02 := some "0" }

/-- Fog scenario, second row. -/
def c6Row2 : RawWeatherRow := { c5Row with WT01 := some "0", WT02 := some "1" }

/-- Fog scenario, third row. -/
def c6Row3 : RawWeatherRow := { c5Row with WT01 := some "0", WT02 := some "0" }

/-- Fog scenario row with an unparseable WT01 and a missing WT02. -/
def c6Bad : RawWeatherRow := { c6Row1 with WT01 := some "xx", WT02 := none }

/-- Standardized outputs of the three fog scenario rows. -/
def c6Out1 : WeatherRow := ((process_weather [c6Row1]).getD []).getD 0 weatherRowDefault

/-- Standardized output of the second fog scenario row. -/
def c6Out2 : WeatherRow := ((process_weather [c6Row2]).getD []).getD 0 weatherRowDefault

/-- Standardized output of the third fog scenario row. -/
def c6Out3 : WeatherRow := ((process_weather [c6Row3]).getD []).getD 0 weatherRowDefault

/-- A standardized collision row dated 2024-01-01 used by the gold scenarios. -/
def colNewYear : CollisionRow :=
  { crash_date := "01/01/2024", crash_time := none, borough := "MANHATTAN"
    zip_code := some "10001"
    number_of_persons_injured := 1, number_of_persons_killed := 0
    number_of_pedestrians_injured := 0, number_of_pedestrians_killed := 0
    number_of_cyclist_injured := 0, number_of_cyclist_killed := 0
    number_of_motorist_injured := 0, number_of_motorist_killed := 0
    date := ⟨2024, 1, 1⟩, is_weekend := false, year := 2024, month := 1 }

/-- A holiday row whose types are ["National", "Public"]. -/
def holNewYear : HolidayRow :=
  { date := ⟨2024, 1, 1⟩, holiday_name := "New Year"
    types := some ["National", "Public"], year := 2024, month := 1 }

/-- A weather row dated away from the collisions of the gold scenarios. -/
def weaElsewhere : WeatherRow :=
  { weatherRowDefault with
    date := ⟨2024, 6, 1⟩
    temp_max_c := some 10
    has_rain := true }

/-- Fallback enriched row used only as a `getD` default. -/
def enrichedRowDefault : EnrichedRow :=
  mkEnriched colNewYear none none

/-- Enriched output of the join-null-safety scenario: one collision, no
holiday, and one weather row on a different date. -/
def c2Enriched : List EnrichedRow :=
  enrich_collisions [colNewYear] [] [weaElsewhere]

/-- Single row of the join-null-safety scenario. -/
def c2Out : EnrichedRow := c2Enriched.getD 0 enrichedRowDefault

/-- Enriched output of the impact-flag scenario: one collision matched to
the ["National", "Public"] holiday. -/
def c3Enriched : List EnrichedRow :=
  enrich_collisions [colNewYear] [holNewYear] []

/-- Single row of the impact-flag scenario. -/
def c3Out : EnrichedRow := c3Enriched.getD 0 enrichedRowDefault

/-- Raw holiday rows for the fan-out scenario: two distinct holiday entries
on the same date (they survive the exact-duplicate `unique()`). -/
def c10RawHols : List RawHolidayRow :=
  [{ date := "2024-01-01", name := "New Year", types := some ["National", "Public"] },
   { date := "2024-01-01", name := "World Day", types := some ["Observance"] }]

/-- Standardized holidays of the fan-out scenario. -/
def c10Hols : List HolidayRow := (process_holidays c10RawHols).getD []

/-- Frame with one critical column that contains a null. -/
def c8Frame : DQFrame := ⟨[("CRASH DATE", [some "01/01/2024", none])]⟩

/-- A filesystem holding a stale file inside the gold directory and one
unrelated file outside it. -/
def c9Fs : FileSys :=
  ⟨[(["gold", "stale.csv"], "old"), (["bronze", "collisions.csv"], "raw")]⟩

/-! ## Theorems -/

/-- C7 counterexample: 501 is a 5xx status, yet the session built by
`setup_session` does not retry it, so retries are not triggered by every 5xx
status as the claim states. -/
theorem retry_policy_not_all_5xx :
    (500 ≤ 501 ∧ 501 < 600) ∧ retriesOnStatus setup_session 501 = false := by
  decide

/-- C7 (amended): the session retries exactly the statuses 500, 502, 503 and
504 (all of them 5xx, but not every 5xx status); it allows up to 3 retry
attempts with exponential backoff starting at 1s; retrying is restricted to
idempotent HTTP methods; and the session carries the fixed identifying
User-Agent header. -/
theorem retry_policy_characterization :
    (∀ code : Nat, retriesOnStatus setup_session code = true ↔
        (code = 500 ∨ code = 502 ∨ code = 503 ∨ code = 504)) ∧
    setup_session.retry.status_forcelist.all
        (fun c => decide (500 ≤ c) && decide (c < 600)) = true ∧
    setup_session.retry.total = 3 ∧
    setup_session.retry.backoff_factor = 1 ∧
    backoffDelay setup_session 0 = 1 ∧
    (∀ n : Nat, backoffDelay setup_session (n + 1) = 2 * backoffDelay setup_session n) ∧
    setup_session.retry.allowed_methods.all idempotentMethod = true ∧
    setup_session.headers.contains ("User-Agent", "NYCCollisionETL/1.0") = true := by
  refine ⟨?_, by decide, by decide, by decide, by decide, ?_, by decide, by decide⟩
  · intro code
    simp only [retriesOnStatus, setup_session, List.contains_eq_any_beq, List.any_cons,
      List.any_nil, Bool.or_eq_true, beq_iff_eq]
    tauto
  · intro n
    simp [backoffDelay, setup_session, pow_succ]
    ring

/-- C8: `validate_dataframe` raises exactly when the frame has zero rows;
with any positive row count it returns normally, only collecting warning
lines for critical columns that are missing or contain nulls, and it never
produces a modified frame (its only output besides the error is the warning
list). -/
theorem validate_dataframe_soft :
    ∀ (df : DQFrame) (name : String) (critical_cols : Option (List String)),
      ((validate_dataframe df name critical_cols).isOk = true ↔ 0 < df.height) ∧
      ((∃ msg, validate_dataframe df name critical_cols = Except.error msg) ↔
        df.height = 0) ∧
      (∀ cols : List String, 0 < df.height →
        validate_dataframe df name (some cols) = Except.ok (dqWarnings df name cols)) := by
  intro df name critical_cols
  by_cases h : df.height = 0
  · refine ⟨?_, ?_, ?_⟩
    · simp [validate_dataframe, h, Except.isOk, Except.toBool]
    · simp [validate_dataframe, h]
    · intro cols hpos
      omega
  · refine ⟨?_, ?_, ?_⟩
    · simp [validate_dataframe, h, Except.isOk, Except.toBool]
      omega
    · simp [validate_dataframe, h]
    · intro cols hpos
      simp [validate_dataframe, h]

/-- C8 witness: a frame whose critical column "CRASH DATE" contains a null
and whose critical column "BOROUGH" is missing passes validation with
warnings only. -/
theorem validate_dataframe_soft_witness :
    0 < c8Frame.height ∧
    validate_dataframe c8Frame "Collisions Bronze" (some ["CRASH DATE", "BOROUGH"])
      = Except.ok (dqWarnings c8Frame "Collisions Bronze" ["CRASH DATE", "BOROUGH"])
      ∧ 0 < c8Frame.null_count "CRASH DATE"
      ∧ c8Frame.columnNames.contains "BOROUGH" = false := by
  refine ⟨by decide, ?_, by decide, by decide⟩
  exact (validate_dataframe_soft c8Frame "Collisions Bronze"
    (some ["CRASH DATE", "BOROUGH"])).2.2 ["CRASH DATE", "BOROUGH"] (by decide)

/-- Helper: a path directly inside a directory lies under it. -/
lemma underDir_append (dir rel : List String) : underDir dir (dir ++ rel) = true := by
  induction dir with
  | nil => rfl
  | cons a as ih => simp [underDir, ih]

/-- Helper: folding the writes of a run over an accumulator none of whose paths
collide with the writes appends exactly the written files. -/
lemma foldl_writeFile_append (dir : List String) :
    ∀ (outs : List (List String × String)) (acc : FileSys),
      (∀ f ∈ acc.files, ∀ o ∈ outs, f.1 ≠ dir ++ o.1) →
      (outs.map (fun o => dir ++ o.1)).Nodup →
      (outs.foldl (fun a o => writeFile a (dir ++ o.1) o.2) acc).files
        = acc.files ++ outs.map (fun o => (dir ++ o.1, o.2)) := by
  intro outs
  induction outs with
  | nil => intro acc _ _; simp
  | cons o rest ih =>
      intro acc hacc hnd
      have hfilter : acc.files.filter (fun f => f.1 ≠ dir ++ o.1) = acc.files := by
        apply List.filter_eq_self.2
        intro f hf
        exact decide_eq_true (hacc f hf o (List.mem_cons_self o rest))
      have hstep : (writeFile acc (dir ++ o.1) o.2).files
          = acc.files ++ [(dir ++ o.1, o.2)] := by
        show acc.files.filter (fun f => f.1 ≠ dir ++ o.1) ++ [(dir ++ o.1, o.2)]
            = acc.files ++ [(dir ++ o.1, o.2)]
        rw [hfilter]
      have hnd2 : (dir ++ o.1) ∉ rest.map (fun o => dir ++ o.1) ∧
          (rest.map (fun o => dir ++ o.1)).Nodup := by
        rw [List.map_cons] at hnd
        exact List.nodup_cons.1 hnd
      simp only [List.foldl_cons]
      rw [ih (writeFile acc (dir ++ o.1) o.2) ?_ hnd2.2]
      · rw [hstep]; simp
      · intro f hf o2 ho2
        rw [hstep] at hf
        rcases List.mem_append.1 hf with h1 | h1
        · exact hacc f h1 o2 (List.mem_cons_of_mem _ ho2)
        · simp only [List.mem_singleton] at h1
          subst h1
          intro hcontra
          have hc2 : dir ++ o.1 = dir ++ o2.1 := hcontra
          refine hnd2.1 ?_
          rw [hc2]
          exact List.mem_map_of_mem (fun o => dir ++ o.1) ho2

/-- C9: after a successful persist step the destination directory holds
exactly the files written by that run (any stale file from a previous run is
gone), files outside the directory are untouched, and in particular the gold
persist leaves exactly `daily_stats.parquet` and `daily_stats.csv` under the
gold base path. -/
theorem persist_replaces_directory :
    (∀ (fs : FileSys) (dir : List String) (outs : List (List String × String)),
        (outs.map (fun o => dir ++ o.1)).Nodup →
        (persistDirectory fs dir outs).files.filter (fun f => underDir dir f.1)
            = outs.map (fun o => (dir ++ o.1, o.2)) ∧
        (persistDirectory fs dir outs).files.filter (fun f => !underDir dir f.1)
            = fs.files.filter (fun f => !underDir dir f.1)) ∧
    (∀ (fs : FileSys) (dir : List String) (p c : String),
        (process_gold_persist fs dir p c).files.filter (fun f => underDir dir f.1)
            = [(dir ++ ["daily_stats.parquet"], p), (dir ++ ["daily_stats.csv"], c)]) := by
  have main : ∀ (fs : FileSys) (dir : List String) (outs : List (List String × String)),
      (outs.map (fun o => dir ++ o.1)).Nodup →
      (persistDirectory fs dir outs).files.filter (fun f => underDir dir f.1)
          = outs.map (fun o => (dir ++ o.1, o.2)) ∧
      (persistDirectory fs dir outs).files.filter (fun f => !underDir dir f.1)
          = fs.files.filter (fun f => !underDir dir f.1) := by
    intro fs dir outs hnd
    have hacc : ∀ f ∈ (clean_output_directory fs dir).files, ∀ o ∈ outs,
        f.1 ≠ dir ++ o.1 := by
      intro f hf o ho hcontra
      have h1 : underDir dir f.1 = false := by
        have := (List.mem_filter.1 hf).2
        simpa using this
      rw [hcontra, underDir_append] at h1
      exact Bool.noConfusion h1
    have hfiles : (persistDirectory fs dir outs).files
        = (clean_output_directory fs dir).files
          ++ outs.map (fun o => (dir ++ o.1, o.2)) :=
      foldl_writeFile_append dir outs (clean_output_directory fs dir) hacc hnd
    have hcleanNone : (clean_output_directory fs dir).files.filter
        (fun f => underDir dir f.1) = [] := by
      apply List.filter_eq_nil_iff.2
      intro f hf
      have := (List.mem_filter.1 hf).2
      simp_all
    have hcleanAll : (clean_output_directory fs dir).files.filter
        (fun f => !underDir dir f.1) = (clean_output_directory fs dir).files := by
      apply List.filter_eq_self.2
      intro f hf
      exact (List.mem_filter.1 hf).2
    have hmapAll : (outs.map (fun o => (dir ++ o.1, o.2))).filter
        (fun f => underDir dir f.1) = outs.map (fun o => (dir ++ o.1, o.2)) := by
      apply List.filter_eq_self.2
      intro f hf
      obtain ⟨o, _, rfl⟩ := List.mem_map.1 hf
      exact underDir_append dir o.1
    have hmapNone : (outs.map (fun o => (dir ++ o.1, o.2))).filter
        (fun f => !underDir dir f.1) = [] := by
      apply List.filter_eq_nil_iff.2
      intro f hf
      obtain ⟨o, _, rfl⟩ := List.mem_map.1 hf
      simp [underDir_append dir o.1]
    constructor
    · rw [hfiles, List.filter_append, hcleanNone, hmapAll, List.nil_append]
    · rw [hfiles, List.filter_append, hcleanAll, hmapNone, List.append_nil]
      rfl
  refine ⟨main, ?_⟩
  intro fs dir p c
  have hnd : (([(["daily_stats.parquet"], p), (["daily_stats.csv"], c)] :
      List (List String × String)).map (fun o => dir ++ o.1)).Nodup := by
    simp only [List.map_cons, List.map_nil, List.nodup_cons, List.mem_singleton,
      List.not_mem_nil, not_false_iff, List.nodup_nil, and_true, true_and]
    intro hcontra
    have := List.append_cancel_left hcontra
    simp at this
  exact (main fs dir [(["daily_stats.parquet"], p), (["daily_stats.csv"], c)] hnd).1

/-- C9 witness: persisting the gold outputs over a filesystem holding a
stale file in the gold directory leaves exactly the two gold outputs there
and the unrelated bronze file untouched. -/
theorem persist_replaces_directory_witness :
    (persistDirectory c9Fs ["gold"]
        [(["daily_stats.parquet"], "P"), (["daily_stats.csv"], "C")]).files.filter
        (fun f => underDir ["gold"] f.1)
      = [(["gold", "daily_stats.parquet"], "P"), (["gold", "daily_stats.csv"], "C")] ∧
    (persistDirectory c9Fs ["gold"]
        [(["daily_stats.parquet"], "P"), (["daily_stats.csv"], "C")]).files.filter
        (fun f => !underDir ["gold"] f.1)
      = [(["bronze", "collisions.csv"], "raw")] := by
  have h := persist_replaces_directory.1 c9Fs ["gold"]
    [(["daily_stats.parquet"], "P"), (["daily_stats.csv"], "C")] (by decide)
  exact ⟨h.1.trans (by decide), h.2.trans (by decide)⟩

/-- Helper: a sum of pointwise sums splits. -/
lemma sum_map_add {α : Type} (l : List α) (f g : α → Nat) :
    (l.map (fun a => f a + g a)).sum = (l.map f).sum + (l.map g).sum := by
  induction l with
  | nil => simp
  | cons a t ih => simp only [List.map_cons, List.sum_cons, ih]; omega

/-- Helper: the indicator of a key absent from a list sums to 0. -/
lemma sum_indicator_of_not_mem {γ : Type} [DecidableEq γ] (k0 : γ) :
    ∀ keys : List γ, k0 ∉ keys →
      (keys.map (fun k => if k0 = k then (1 : Nat) else 0)).sum = 0 := by
  intro keys
  induction keys with
  | nil => intro _; simp
  | cons k t ih =>
      intro h
      have hne : ¬ k0 = k := fun hc => h (hc ▸ List.mem_cons_self k t)
      simp only [List.map_cons, List.sum_cons, if_neg hne, Nat.zero_add]
      exact ih (fun hc => h (List.mem_cons_of_mem k hc))

/-- Helper: the indicator of a key present in a duplicate-free list sums
to 1. -/
lemma sum_indicator_of_mem {γ : Type} [DecidableEq γ] (k0 : γ) :
    ∀ keys : List γ, keys.Nodup → k0 ∈ keys →
      (keys.map (fun k => if k0 = k then (1 : Nat) else 0)).sum = 1 := by
  intro keys
  induction keys with
  | nil => intro _ h; cases h
  | cons k t ih =>
      intro hnd hmem
      rcases List.mem_cons.1 hmem with rfl | hmem2
      · simp only [List.map_cons, List.sum_cons, if_pos rfl]
        rw [sum_indicator_of_not_mem k0 t (List.nodup_cons.1 hnd).1]
        simp
      · have hne : ¬ k0 = k := by
          intro hc
          exact (List.nodup_cons.1 hnd).1 (hc ▸ hmem2)
        simp only [List.map_cons, List.sum_cons, if_neg hne, Nat.zero_add]
        exact ih (List.nodup_cons.1 hnd).2 hmem2

/-- Helper: grouping a table by a key and counting each group partitions the
rows, so the group sizes sum to the row count of the table. -/
lemma sum_group_lengths {α γ : Type} [DecidableEq γ] (key : α → γ) :
    ∀ (rows : List α) (keys : List γ), keys.Nodup → (∀ e ∈ rows, key e ∈ keys) →
      (keys.map (fun k => (rows.filter (fun e => decide (key e = k))).length)).sum
        = rows.length := by
  intro rows
  induction rows with
  | nil => intro keys _ _; simp
  | cons e rest ih =>
      intro keys hnd hcov
      have hpt : ∀ k, (((e :: rest).filter (fun x => decide (key x = k))).length)
          = (if key e = k then (1 : Nat) else 0)
            + ((rest.filter (fun x => decide (key x = k))).length) := by
        intro k
        by_cases h : key e = k
        · simp [List.filter_cons, h]
          omega
        · simp [List.filter_cons, h]
      rw [List.map_congr_left (fun k _ => hpt k), sum_map_add,
        sum_indicator_of_mem (key e) keys hnd (hcov e (List.mem_cons_self e rest)),
        ih keys hnd (fun x hx => hcov x (List.mem_cons_of_mem e hx))]
      simp [List.length_cons, Nat.add_comm]

/-- Helper: the fact rows of `aggregate_stats` carry group sizes that sum to
the row count of the enriched table. -/
lemma aggregate_total_sum (rows : List EnrichedRow) :
    ((aggregate_stats rows).map (fun f => f.total_accidents)).sum = rows.length := by
  unfold aggregate_stats
  calc ((List.insertionSort factLE
          (((rows.map groupKey).dedup).map
            (fun k => mkFact k (rows.filter (fun e => decide (groupKey e = k)))))).map
          (fun f => f.total_accidents)).sum
      = ((((rows.map groupKey).dedup).map
            (fun k => mkFact k (rows.filter (fun e => decide (groupKey e = k))))).map
          (fun f => f.total_accidents)).sum :=
        ((List.perm_insertionSort factLE _).map (fun f => f.total_accidents)).sum_eq
    _ = (((rows.map groupKey).dedup).map
          (fun k => (rows.filter (fun e => decide (groupKey e = k))).length)).sum := by
        rw [List.map_map]; rfl
    _ = rows.length :=
        sum_group_lengths groupKey rows ((rows.map groupKey).dedup)
          (List.nodup_dedup _)
          (fun e he => List.mem_dedup.2 (List.mem_map_of_mem groupKey he))

/-- Helper: the date order underlying the gold sort is total. -/
lemma date_le_total (a b : Date) : a.le b = true ∨ b.le a = true := by
  simp only [Date.le, Bool.or_eq_true, Bool.and_eq_true, decide_eq_true_eq,
    beq_iff_eq]
  omega

/-- Helper: the date order underlying the gold sort is transitive. -/
lemma date_le_trans {a b c : Date} (h1 : a.le b = true) (h2 : b.le c = true) :
    a.le c = true := by
  simp only [Date.le, Bool.or_eq_true, Bool.and_eq_true, decide_eq_true_eq,
    beq_iff_eq] at h1 h2 ⊢
  omega

instance : IsTotal DailyFact factLE :=
  ⟨fun a b => date_le_total a.key.date b.key.date⟩

instance : IsTrans DailyFact factLE :=
  ⟨fun _ _ _ h1 h2 => date_le_trans h1 h2⟩

/-- C1: for every enriched table, the `total_accidents` of the fact rows
produced by `_aggregate_stats` sum to the row count of the enriched table (rows
with null grouping values included, since a null key is grouped like any
other value), and the fact rows are sorted by date ascending. -/
theorem aggregation_conservation (rows : List EnrichedRow) :
    ((aggregate_stats rows).map (fun f => f.total_accidents)).sum = rows.length ∧
    List.Sorted factLE (aggregate_stats rows) := by
  refine ⟨aggregate_total_sum rows, ?_⟩
  unfold aggregate_stats
  exact List.sorted_insertionSort factLE _

/-- Helper: inversion of a successful `Option.bind`. -/
lemma optionBind_eq_some {α β : Type} {x : Option α} {f : α → Option β} {b : β}
    (h : x.bind f = some b) : ∃ a, x = some a ∧ f a = some b := by
  cases x with
  | none => simp at h
  | some a => exact ⟨a, rfl, h⟩

/-- Helper: a successful `mapOption` run relates input and output rows
pointwise. -/
lemma mapOption_eq_some_forall2 {α β : Type} {f : α → Option β} :
    ∀ {l : List α} {out : List β}, mapOption f l = some out →
      List.Forall₂ (fun a b => f a = some b) l out := by
  intro l
  induction l with
  | nil =>
      intro out h
      simp only [mapOption, Option.some.injEq] at h
      rw [← h]
      exact List.Forall₂.nil
  | cons a t ih =>
      intro out h
      have h2 : (f a).bind
          (fun b => (mapOption f t).bind (fun bs => some (b :: bs))) = some out := h
      obtain ⟨b, hb, h3⟩ := optionBind_eq_some h2
      obtain ⟨bs, hbs, h4⟩ := optionBind_eq_some h3
      injection h4 with h5
      rw [← h5]
      exact List.Forall₂.cons hb (ih hbs)

/-- Helper: inversion of a successful `standardizeCollision`. -/
lemma standardizeCollision_eq_some {r : RawCollisionRow} {out : CollisionRow}
    (h : standardizeCollision r = some out) :
    ∃ cd date, r.crash_date = some cd ∧ parseDateMDY cd = some date ∧
      out.crash_date = cd ∧ out.date = date := by
  have h2 : r.crash_date.bind (fun cd => (parseDateMDY cd).bind (fun date => some
      { crash_date := cd
        crash_time := r.crash_time
        borough := r.borough.getD "UNKNOWN"
        zip_code := r.zip_code
        number_of_persons_injured := r.number_of_persons_injured.getD 0
        number_of_persons_killed := r.number_of_persons_killed.getD 0
        number_of_pedestrians_injured := r.number_of_pedestrians_injured.getD 0
        number_of_pedestrians_killed := r.number_of_pedestrians_killed.getD 0
        number_of_cyclist_injured := r.number_of_cyclist_injured.getD 0
        number_of_cyclist_killed := r.number_of_cyclist_killed.getD 0
        number_of_motorist_injured := r.number_of_motorist_injured.getD 0
        number_of_motorist_killed := r.number_of_motorist_killed.getD 0
        date := date
        is_weekend := decide (6 ≤ date.isoWeekday)
        year := date.year
        month := date.month })) = some out := h
  obtain ⟨cd, hcd, h3⟩ := optionBind_eq_some h2
  obtain ⟨date, hdate, h4⟩ := optionBind_eq_some h3
  injection h4 with h5
  exact ⟨cd, date, hcd, hdate, by rw [← h5], by rw [← h5]⟩

/-- Helper: every row of a pointwise-related output comes from some input
row. -/
lemma forall2_mem_right {α β : Type} {R : α → β → Prop} :
    ∀ {l : List α} {out : List β}, List.Forall₂ R l out →
      ∀ b ∈ out, ∃ a ∈ l, R a b := by
  intro l out h
  induction h with
  | nil => intro b hb; cases hb
  | @cons a b l2 out2 hR hF ih =>
      intro x hx
      rcases List.mem_cons.1 hx with rfl | hx2
      · exact ⟨a, List.mem_cons_self a l2, hR⟩
      · obtain ⟨a2, ha2, hr2⟩ := ih x hx2
        exact ⟨a2, List.mem_cons_of_mem a ha2, hr2⟩

/-- Helper: extracting the non-null crash dates commutes with first
filtering to the rows that have one. -/
lemma filterMap_crash_date (rows : List RawCollisionRow) :
    (rows.filter (fun r => r.crash_date.isSome)).filterMap (fun r => r.crash_date)
      = rows.filterMap (fun r => r.crash_date) := by
  induction rows with
  | nil => rfl
  | cons r t ih =>
      cases h : r.crash_date <;>
        simp [List.filter_cons, List.filterMap_cons, h, ih]

/-- C4: `process_collisions` drops exactly the rows whose "CRASH DATE" is
null: the standardized output has one row per non-null-date input row, and
the surviving crash dates are precisely the non-null input dates in order,
with no filtering on how old a date is. -/
theorem null_date_filter :
    ∀ (rows : List RawCollisionRow) (out : List CollisionRow),
      process_collisions rows = some out →
      out.length = (rows.filter (fun r => r.crash_date.isSome)).length ∧
      out.map (fun s => s.crash_date) = rows.filterMap (fun r => r.crash_date) := by
  intro rows out h
  unfold process_collisions at h
  have hf2 := mapOption_eq_some_forall2 h
  refine ⟨hf2.length_eq.symm, ?_⟩
  rw [← filterMap_crash_date rows]
  generalize hl : rows.filter (fun r => r.crash_date.isSome) = l at hf2
  clear hl h
  induction hf2 with
  | nil => simp
  | @cons a b l2 out2 hR hF ih =>
      obtain ⟨cd, date, hcd, hdate, hbc, _⟩ := standardizeCollision_eq_some hR
      rw [List.map_cons, List.filterMap_cons, hcd, hbc]
      exact congrArg (List.cons cd) ih

/-- C4 witness: the three-row input with dates "01/01/2024", "01/01/2019"
and null standardizes to exactly 2 rows, keeping the 2019 row. -/
theorem null_date_filter_witness :
    process_collisions c4Rows = some c4Out ∧ c4Out.length = 2 ∧
    c4Out.map (fun s => s.crash_date) = ["01/01/2024", "01/01/2019"] := by
  have h : process_collisions c4Rows = some c4Out := by decide
  have hthm := null_date_filter c4Rows c4Out h
  exact ⟨h, hthm.1.trans (by decide), hthm.2.trans (by decide)⟩

/-- Helper: inversion of a successful `standardizeWeather`. -/
lemma standardizeWeather_eq_some {r : RawWeatherRow} {out : WeatherRow}
    (h : standardizeWeather r = some out) :
    ∃ ds date tmax tmin prcp snow,
      r.DATE = some ds ∧ parseDateYMD ds = some date ∧
      castFloatStrict r.TMAX = some tmax ∧ castFloatStrict r.TMIN = some tmin ∧
      castFloatStrict r.PRCP = some prcp ∧ castFloatStrict r.SNOW = some snow ∧
      out = mkWeatherRow date tmax tmin prcp snow r.WT01 r.WT02 := by
  unfold standardizeWeather at h
  cases hds : r.DATE with
  | none =>
      simp only [hds] at h
      exact Option.noConfusion h
  | some ds =>
    simp only [hds] at h
    cases hdate : parseDateYMD ds with
    | none =>
        simp only [hdate] at h
        exact Option.noConfusion h
    | some date =>
      simp only [hdate] at h
      cases htmax : castFloatStrict r.TMAX with
      | none =>
          simp only [htmax] at h
          exact Option.noConfusion h
      | some tmax =>
        cases htmin : castFloatStrict r.TMIN with
        | none =>
            simp only [htmax, htmin] at h
            exact Option.noConfusion h
        | some tmin =>
          cases hprcp : castFloatStrict r.PRCP with
          | none =>
              simp only [htmax, htmin, hprcp] at h
              exact Option.noConfusion h
          | some prcp =>
            cases hsnow : castFloatStrict r.SNOW with
            | none =>
                simp only [htmax, htmin, hprcp, hsnow] at h
                exact Option.noConfusion h
            | some snow =>
              simp only [htmax, htmin, hprcp, hsnow, Option.some.injEq] at h
              exact ⟨ds, date, tmax, tmin, prcp, snow, rfl, hdate,
                rfl, rfl, rfl, rfl, h.symm⟩

/-- Helper: `standardizeWeather` succeeds with the built row whenever the
date parses and the four strict casts succeed. -/
lemma standardizeWeather_eq_mk {r : RawWeatherRow} {ds : String} {date : Date}
    {tmax tmin prcp snow : Option ℚ}
    (hds : r.DATE = some ds) (hdate : parseDateYMD ds = some date)
    (htmax : castFloatStrict r.TMAX = some tmax)
    (htmin : castFloatStrict r.TMIN = some tmin)
    (hprcp : castFloatStrict r.PRCP = some prcp)
    (hsnow : castFloatStrict r.SNOW = some snow) :
    standardizeWeather r
      = some (mkWeatherRow date tmax tmin prcp snow r.WT01 r.WT02) := by
  unfold standardizeWeather
  simp only [hds, hdate, htmax, htmin, hprcp, hsnow]

/-- Helper: every row of a successful `process_weather` output comes from
some input row that standardizes to it. -/
lemma mem_process_weather {rows : List RawWeatherRow} {outs : List WeatherRow}
    (h : process_weather rows = some outs) :
    ∀ o ∈ outs, ∃ r ∈ rows, standardizeWeather r = some o := by
  intro o ho
  obtain ⟨r, hr, hstd⟩ := forall2_mem_right (mapOption_eq_some_forall2 h) o ho
  exact ⟨r, (List.mem_filter.1 hr).1, hstd⟩

/-- Helper: the strict float cast of a present text value succeeds exactly
with its parsed number. -/
lemma castFloatStrict_some {s : String} {v : ℚ}
    (hv : parseDecimal (trimChars s.toList) = some v) :
    castFloatStrict (some s) = some (some v) := by
  show (parseDecimal (trimChars s.toList)).map some = some (some v)
  rw [hv]
  rfl

/-- C5: in `process_weather`, the temperature of every surviving row and
precipitation come from the stripped raw text divided by 10, the temperature
additionally rounded to one decimal place. -/
theorem weather_unit_conversion :
    ∀ (rows : List RawWeatherRow) (outs : List WeatherRow),
      process_weather rows = some outs →
      ∀ o ∈ outs, ∃ r ∈ rows, standardizeWeather r = some o ∧
        (∀ s v, r.TMAX = some s → parseDecimal (trimChars s.toList) = some v →
            o.temp_max_c = some (roundTo1 (v / 10))) ∧
        (∀ s v, r.TMIN = some s → parseDecimal (trimChars s.toList) = some v →
            o.temp_min_c = some (roundTo1 (v / 10))) ∧
        (∀ s v, r.PRCP = some s → parseDecimal (trimChars s.toList) = some v →
            o.precipitation_mm = some (v / 10)) := by
  intro rows outs h o ho
  obtain ⟨r, hr, hstd⟩ := mem_process_weather h o ho
  obtain ⟨ds, date, tmax, tmin, prcp, snow, _, _, htmax, htmin, hprcp, _, hout⟩ :=
    standardizeWeather_eq_some hstd
  refine ⟨r, hr, hstd, ?_, ?_, ?_⟩
  · intro s v hs hv
    rw [hs, castFloatStrict_some hv] at htmax
    injection htmax with h9
    rw [hout]
    show tmax.map (fun v2 => roundTo1 (v2 / 10)) = some (roundTo1 (v / 10))
    rw [← h9]
    rfl
  · intro s v hs hv
    rw [hs, castFloatStrict_some hv] at htmin
    injection htmin with h9
    rw [hout]
    show tmin.map (fun v2 => roundTo1 (v2 / 10)) = some (roundTo1 (v / 10))
    rw [← h9]
    rfl
  · intro s v hs hv
    rw [hs, castFloatStrict_some hv] at hprcp
    injection hprcp with h9
    rw [hout]
    show prcp.map (fun v2 => v2 / 10) = some (v / 10)
    rw [← h9]
    rfl

/-- C5 witness: raw TMAX "250" standardizes to temp_max_c 25.0 and raw PRCP
"50" to precipitation_mm 5.0. -/
theorem weather_unit_conversion_witness :
    c5Out.temp_max_c = some 25 ∧ c5Out.precipitation_mm = some 5 := by
  obtain ⟨r, hr, _, htmax, _, hprcp⟩ :=
    weather_unit_conversion [c5Row] c5Outs rfl c5Out (List.mem_cons_self c5Out [])
  have hre : r = c5Row := List.eq_of_mem_singleton hr
  subst hre
  constructor
  · rw [htmax "250" 250 rfl (by decide)]
    rw [show roundTo1 ((250 : ℚ) / 10) = 25 by
      rw [show ((250 : ℚ) / 10) = 25 by norm_num]
      unfold roundTo1 roundHalfAway
      rw [if_pos (by norm_num : (0 : ℚ) ≤ 25 * 10)]
      norm_num]
  · rw [hprcp "50" 50 rfl (by decide)]
    norm_num

/-- Helper: the filled Kleene disjunction is true exactly when one operand
is a non-null true. -/
lemma kleeneOr_getD_eq_true (a b : Option Bool) :
    ((kleeneOr a b).getD false = true) ↔ (a = some true ∨ b = some true) := by
  rcases a with _ | a2
  · rcases b with _ | b2
    · simp [kleeneOr]
    · cases b2 <;> simp [kleeneOr]
  · rcases b with _ | b2
    · cases a2 <;> simp [kleeneOr]
    · cases a2 <;> cases b2 <;> simp [kleeneOr]

/-- Helper: a nullable integer compares equal to 1 exactly when it is a
non-null 1. -/
lemma map_beq_one (a : Option Int) :
    a.map (fun n => n == 1) = some true ↔ a = some 1 := by
  rcases a with _ | n <;> simp [beq_iff_eq]

/-- C6: in `process_weather`, a surviving row is foggy exactly when its
WT01 or its WT02 text parses to the integer 1; and changing the WT01/WT02
texts (to anything, including unparseable or missing values) never makes
standardization error out. -/
theorem fog_or_logic :
    (∀ (rows : List RawWeatherRow) (outs : List WeatherRow),
      process_weather rows = some outs →
      ∀ o ∈ outs, ∃ r ∈ rows, standardizeWeather r = some o ∧
        (o.is_foggy = true ↔
          (castIntNonStrict r.WT01 = some 1 ∨ castIntNonStrict r.WT02 = some 1))) ∧
    (∀ (r : RawWeatherRow) (w1 w2 : Option String),
      (standardizeWeather r).isSome = true →
      (standardizeWeather { r with WT01 := w1, WT02 := w2 }).isSome = true) := by
  constructor
  · intro rows outs h o ho
    obtain ⟨r, hr, hstd⟩ := mem_process_weather h o ho
    obtain ⟨ds, date, tmax, tmin, prcp, snow, _, _, _, _, _, _, hout⟩ :=
      standardizeWeather_eq_some hstd
    refine ⟨r, hr, hstd, ?_⟩
    rw [hout]
    show (kleeneOr ((castIntNonStrict r.WT01).map (fun n => n == 1))
        ((castIntNonStrict r.WT02).map (fun n => n == 1))).getD false = true ↔ _
    rw [kleeneOr_getD_eq_true, map_beq_one, map_beq_one]
  · intro r w1 w2 hsome
    obtain ⟨out, hout⟩ := Option.isSome_iff_exists.1 hsome
    obtain ⟨ds, date, tmax, tmin, prcp, snow, hds, hdate, htmax, htmin, hprcp, hsnow, _⟩ :=
      standardizeWeather_eq_some hout
    have h2 : standardizeWeather { r with WT01 := w1, WT02 := w2 }
        = some (mkWeatherRow date tmax tmin prcp snow w1 w2) :=
      standardizeWeather_eq_mk hds hdate htmax htmin hprcp hsnow
    rw [h2]
    rfl

/-- C6 witness: WT01/WT02 of "1"/"0" and of "0"/"1" both standardize foggy,
"0"/"0" standardizes not foggy, and replacing WT01/WT02 by unparseable and
missing values still standardizes without error. -/
theorem fog_or_logic_witness :
    c6Out1.is_foggy = true ∧ c6Out2.is_foggy = true ∧ c6Out3.is_foggy = false ∧
    (standardizeWeather c6Bad).isSome = true := by
  obtain ⟨r1, hr1, _, hiff1⟩ :=
    fog_or_logic.1 [c6Row1] ((process_weather [c6Row1]).getD []) rfl c6Out1
      (List.mem_cons_self c6Out1 [])
  obtain ⟨r2, hr2, _, hiff2⟩ :=
    fog_or_logic.1 [c6Row2] ((process_weather [c6Row2]).getD []) rfl c6Out2
      (List.mem_cons_self c6Out2 [])
  obtain ⟨r3, hr3, _, hiff3⟩ :=
    fog_or_logic.1 [c6Row3] ((process_weather [c6Row3]).getD []) rfl c6Out3
      (List.mem_cons_self c6Out3 [])
  have he1 : r1 = c6Row1 := List.eq_of_mem_singleton hr1
  have he2 : r2 = c6Row2 := List.eq_of_mem_singleton hr2
  have he3 : r3 = c6Row3 := List.eq_of_mem_singleton hr3
  subst he1; subst he2; subst he3
  refine ⟨hiff1.2 (Or.inl (by decide)), hiff2.2 (Or.inr (by decide)), ?_, ?_⟩
  · have hnot : ¬ (castIntNonStrict c6Row3.WT01 = some 1 ∨
        castIntNonStrict c6Row3.WT02 = some 1) := by decide
    cases hfog : c6Out3.is_foggy with
    | false => rfl
    | true => exact absurd (hiff3.1 hfog) hnot
  · exact fog_or_logic.2 c6Row1 (some "xx") none (by decide)

/-- Helper: a null row in the match list of a left join means no right row
matched the key. -/
lemma leftMatches_none {α : Type} {p : α → Bool} {xs : List α}
    (h : none ∈ leftMatches p xs) : ∀ a ∈ xs, p a = false := by
  unfold leftMatches at h
  cases hf : xs.filter p with
  | nil =>
      intro a ha
      have := List.filter_eq_nil_iff.1 hf a ha
      simpa using this
  | cons m ms =>
      simp only [hf] at h
      simp at h

/-- Helper: a non-null row in the match list of a left join is a right row that
matches the key. -/
lemma leftMatches_some {α : Type} {p : α → Bool} {xs : List α} {a : α}
    (h : some a ∈ leftMatches p xs) : a ∈ xs ∧ p a = true := by
  unfold leftMatches at h
  cases hf : xs.filter p with
  | nil =>
      simp only [hf] at h
      simp at h
  | cons m ms =>
      simp only [hf] at h
      have ha : a ∈ xs.filter p := by
        rw [hf]
        rcases List.mem_map.1 h with ⟨x, hx, hxa⟩
        injection hxa with h2
        rw [← h2]
        exact hx
      exact ⟨(List.mem_filter.1 ha).1, (List.mem_filter.1 ha).2⟩

/-- Helper: inversion of membership in the enriched table: every enriched
row comes from a year-2020-onward collision row paired with one holiday
match (or none) and one weather match (or none). -/
lemma mem_enrich {cols : List CollisionRow} {hols : List HolidayRow}
    {wea : List WeatherRow} {e : EnrichedRow}
    (he : e ∈ enrich_collisions cols hols wea) :
    ∃ c ∈ cols, 2020 ≤ c.date.year ∧
    ∃ h ∈ leftMatches (fun h2 => h2.date == c.date) hols,
    ∃ w ∈ leftMatches (fun w2 => w2.date == c.date) (wea.map selectWeatherClean),
      e = mkEnriched c h w := by
  unfold enrich_collisions at he
  simp only [List.mem_flatMap, List.mem_map, List.mem_filter,
    decide_eq_true_eq] at he
  obtain ⟨c, ⟨hc, hy⟩, h, hh, w, hw, hmk⟩ := he
  exact ⟨c, hc, hy, h, hh, w, hw, hmk.symm⟩

/-- C2: in `_enrich_collisions`, a row whose date has no weather match gets
false rain/snow/fog flags and null max_temp/min_temp (no synthetic fill); a
row with a weather match carries the temperatures of that match under the names
max_temp/min_temp; and a row with no holiday match gets the literal
"Non-Holiday" name. -/
theorem join_null_safety :
    ∀ (cols : List CollisionRow) (hols : List HolidayRow) (wea : List WeatherRow),
      ∀ e ∈ enrich_collisions cols hols wea,
        ((∀ w ∈ wea, w.date ≠ e.date) →
            e.has_rain = false ∧ e.has_snow = false ∧ e.is_foggy = false ∧
            e.max_temp = none ∧ e.min_temp = none) ∧
        ((∃ w ∈ wea, w.date = e.date) →
            ∃ w ∈ wea, w.date = e.date ∧ e.max_temp = w.temp_max_c ∧
              e.min_temp = w.temp_min_c) ∧
        ((∀ h ∈ hols, h.date ≠ e.date) → e.holiday_name = "Non-Holiday") := by
  intro cols hols wea e he
  obtain ⟨c, hc, hy, hopt, hh, wopt, hw, rfl⟩ := mem_enrich he
  refine ⟨?_, ?_, ?_⟩
  · intro hnone
    cases wopt with
    | none => exact ⟨rfl, rfl, rfl, rfl, rfl⟩
    | some wc =>
        obtain ⟨hwmem, hwp⟩ := leftMatches_some hw
        obtain ⟨w0, hw0, hw0eq⟩ := List.mem_map.1 hwmem
        have h1 : wc.date = c.date := by simpa using hwp
        have h2 : w0.date = (mkEnriched c hopt (some wc)).date := by
          show w0.date = c.date
          rw [← h1, ← hw0eq]
          rfl
        exact absurd h2 (hnone w0 hw0)
  · intro hex
    obtain ⟨w1, hw1, hd1⟩ := hex
    cases wopt with
    | none =>
        exfalso
        have hmem : selectWeatherClean w1 ∈ wea.map selectWeatherClean :=
          List.mem_map_of_mem selectWeatherClean hw1
        have hfalse := leftMatches_none hw _ hmem
        have h3 : w1.date = c.date := hd1
        rw [show (selectWeatherClean w1).date = w1.date from rfl, h3] at hfalse
        simp at hfalse
    | some wc =>
        obtain ⟨hwmem, hwp⟩ := leftMatches_some hw
        obtain ⟨w0, hw0, hw0eq⟩ := List.mem_map.1 hwmem
        have h1 : wc.date = c.date := by simpa using hwp
        refine ⟨w0, hw0, ?_, ?_, ?_⟩
        · show w0.date = c.date
          rw [← h1, ← hw0eq]
          rfl
        · show wc.temp_max_c = w0.temp_max_c
          rw [← hw0eq]
          rfl
        · show wc.temp_min_c = w0.temp_min_c
          rw [← hw0eq]
          rfl
  · intro hnoh
    cases hopt with
    | none => rfl
    | some hrow =>
        obtain ⟨hhmem, hhp⟩ := leftMatches_some hh
        have h3 : hrow.date = c.date := by simpa using hhp
        exact absurd h3 (hnoh hrow hhmem)

/-- C2 witness: one collision with no holiday row and a weather row on a
different date enriches with false flags, null temperatures and the
"Non-Holiday" name. -/
theorem join_null_safety_witness :
    c2Out.has_rain = false ∧ c2Out.has_snow = false ∧ c2Out.is_foggy = false ∧
    c2Out.max_temp = none ∧ c2Out.min_temp = none ∧
    c2Out.holiday_name = "Non-Holiday" := by
  obtain ⟨hmiss, _, hname⟩ :=
    join_null_safety [colNewYear] [] [weaElsewhere] c2Out (by decide)
  have h1 := hmiss (by decide)
  exact ⟨h1.1, h1.2.1, h1.2.2.1, h1.2.2.2.1, h1.2.2.2.2, hname (by decide)⟩

/-- C3: in `_enrich_collisions`, each impact flag is true exactly when the
joined holiday type list contains the corresponding tags (Public/Bank for
high, School/Authorities for partial, Optional/Observance for low), and all
three flags are false when the type list is absent. -/
theorem impact_flag_classification :
    ∀ (cols : List CollisionRow) (hols : List HolidayRow) (wea : List WeatherRow),
      ∀ e ∈ enrich_collisions cols hols wea,
        (e.high_impact_holiday = true ↔ ∃ ts, e.types = some ts ∧
            (ts.contains "Public" = true ∨ ts.contains "Bank" = true)) ∧
        (e.partial_impact_holiday = true ↔ ∃ ts, e.types = some ts ∧
            (ts.contains "School" = true ∨ ts.contains "Authorities" = true)) ∧
        (e.low_impact_holiday = true ↔ ∃ ts, e.types = some ts ∧
            (ts.contains "Optional" = true ∨ ts.contains "Observance" = true)) ∧
        (e.types = none →
          e.high_impact_holiday = false ∧ e.partial_impact_holiday = false ∧
          e.low_impact_holiday = false) := by
  intro cols hols wea e he
  obtain ⟨c, _, _, hopt, _, wopt, _, rfl⟩ := mem_enrich he
  have hhigh : (mkEnriched c hopt wopt).high_impact_holiday
      = (((mkEnriched c hopt wopt).types).map
          (fun ts => ts.contains "Public" || ts.contains "Bank")).getD false := rfl
  have hpartial : (mkEnriched c hopt wopt).partial_impact_holiday
      = (((mkEnriched c hopt wopt).types).map
          (fun ts => ts.contains "School" || ts.contains "Authorities")).getD false := rfl
  have hlow : (mkEnriched c hopt wopt).low_impact_holiday
      = (((mkEnriched c hopt wopt).types).map
          (fun ts => ts.contains "Optional" || ts.contains "Observance")).getD false := rfl
  cases htv : (mkEnriched c hopt wopt).types with
  | none =>
      rw [hhigh, hpartial, hlow, htv]
      simp
  | some ts =>
      rw [hhigh, hpartial, hlow, htv]
      simp [Bool.or_eq_true]

/-- C3 witness: a holiday with types ["National", "Public"] enriches with
the high-impact flag true and the other two impact flags false. -/
theorem impact_flag_classification_witness :
    c3Out.high_impact_holiday = true ∧ c3Out.partial_impact_holiday = false ∧
    c3Out.low_impact_holiday = false ∧ c3Out.types = some ["National", "Public"] := by
  obtain ⟨hhigh, hpartial, hlow, _⟩ :=
    impact_flag_classification [colNewYear] [holNewYear] [] c3Out (by decide)
  have htypes : c3Out.types = some ["National", "Public"] := by decide
  refine ⟨?_, ?_, ?_, htypes⟩
  · exact hhigh.2 ⟨["National", "Public"], htypes, Or.inl (by decide)⟩
  · cases hp : c3Out.partial_impact_holiday with
    | false => rfl
    | true =>
        obtain ⟨ts, hts, hcont⟩ := hpartial.1 hp
        rw [htypes] at hts
        injection hts with h3
        rw [← h3] at hcont
        rcases hcont with h4 | h4 <;> exact absurd h4 (by decide)
  · cases hp : c3Out.low_impact_holiday with
    | false => rfl
    | true =>
        obtain ⟨ts, hts, hcont⟩ := hlow.1 hp
        rw [htypes] at hts
        injection hts with h3
        rw [← h3] at hcont
        rcases hcont with h4 | h4 <;> exact absurd h4 (by decide)

/-- Helper: a left join produces one row per match, or a single null row. -/
lemma leftMatches_length {α : Type} (p : α → Bool) (xs : List α) :
    (leftMatches p xs).length = max 1 (xs.filter p).length := by
  unfold leftMatches
  cases hf : xs.filter p with
  | nil => simp
  | cons m ms =>
      simp only [List.length_map, List.length_cons]
      omega

/-- Helper: summing a constant over a list multiplies it by the length. -/
lemma sum_map_const {α : Type} (l : List α) (k : Nat) :
    (l.map (fun _ => k)).sum = l.length * k := by
  induction l with
  | nil => simp
  | cons a t ih =>
      simp only [List.map_cons, List.sum_cons, List.length_cons, ih,
        Nat.succ_mul]
      omega

/-- C10: a collision row dated in 2020 or later produces exactly
`max 1 (holiday matches) * max 1 (weather matches)` enriched rows — so two
distinct holiday entries on one date double every collision of that date in
the enriched table, and conservation counts them twice in total_accidents
(it holds relative to the enriched table, not the collisions input). -/
theorem enrich_fanout (c : CollisionRow) (hols : List HolidayRow)
    (wea : List WeatherRow) (hy : 2020 ≤ c.date.year) :
    (enrich_collisions [c] hols wea).length
        = max 1 (hols.filter (fun h => h.date == c.date)).length
          * max 1 (wea.filter (fun w => w.date == c.date)).length ∧
    ((aggregate_stats (enrich_collisions [c] hols wea)).map
        (fun f => f.total_accidents)).sum
        = max 1 (hols.filter (fun h => h.date == c.date)).length
          * max 1 (wea.filter (fun w => w.date == c.date)).length := by
  have hwlen : ((wea.map selectWeatherClean).filter
      (fun w => w.date == c.date)).length
      = (wea.filter (fun w => w.date == c.date)).length := by
    rw [List.filter_map, List.length_map]
    rfl
  have hmain : (enrich_collisions [c] hols wea).length
      = (leftMatches (fun h => h.date == c.date) hols).length
        * (leftMatches (fun w => w.date == c.date) (wea.map selectWeatherClean)).length := by
    unfold enrich_collisions
    simp only [List.filter_cons, List.filter_nil, decide_eq_true hy, if_true,
      List.flatMap_cons, List.flatMap_nil, List.append_nil]
    rw [List.length_flatMap]
    simp only [Function.comp_def, List.length_map]
    rw [sum_map_const]
  constructor
  · rw [hmain, leftMatches_length, leftMatches_length, hwlen]
  · rw [aggregate_total_sum, hmain, leftMatches_length, leftMatches_length, hwlen]

/-- C10 witness: two distinct holiday entries on 2024-01-01 both survive the
exact-duplicate `unique()`, and one collision on that date yields 2 enriched
rows and a total_accidents sum of 2. -/
theorem enrich_fanout_witness :
    process_holidays c10RawHols = some c10Hols ∧ c10Hols.length = 2 ∧
    (enrich_collisions [colNewYear] c10Hols []).length = 2 ∧
    ((aggregate_stats (enrich_collisions [colNewYear] c10Hols [])).map
        (fun f => f.total_accidents)).sum = 2 := by
  have h := enrich_fanout colNewYear c10Hols [] (by decide)
  refine ⟨by decide, by decide, ?_, ?_⟩
  · rw [h.1]; decide
  · rw [h.2]; decide

end NycEtl
